import Mathlib

/-!
Verification of the CSU-ZY/CSUPDK cross-section / routing core.

The definitions below are a shallow embedding of the Python sources:
  * src/gdsfactory/cross_section.py  (Section, CrossSection, cross_section factory)
  * src/pp/name.py                   (clean_value, clean_name, dict2name, dict2hash)
  * src/pp/routing/get_route.py      (router entry points; the manhattan core
    round_corners / route_manhattan lives in src/pp/routing/manhattan.py which is
    not part of the provided sources, so those parts are modelled from the spec)

Python floats are embedded as exact rationals; Python exceptions are embedded
with an explicit error monad (Except PyError).
-/

namespace CSUPDK

/-- The Python exceptions that the embedded code can raise. -/
inductive PyError where
  | indexError
  | attributeError
  | validationError
  deriving DecidableEq, Repr

/-- A layer specifier: either a (layer, datatype) pair or a symbolic name
(src/gdsfactory/cross_section.py, `Layer = tuple[int, int]`, `LayerSpec = Layer | str`). -/
inductive LayerSpec where
  | pair : Int → Int → LayerSpec
  | nameRef : String → LayerSpec
  deriving DecidableEq, Repr

/-- A generic Python attribute value, used to model `setattr` on frozen pydantic
models, where the assignment fails whatever the value is. -/
inductive PyVal where
  | numV : ℚ → PyVal
  | strV : String → PyVal
  | boolV : Bool → PyVal
  | noneV : PyVal
  deriving DecidableEq, Repr

/-- `Section` from src/gdsfactory/cross_section.py (lines 35-79): one transverse
strip of a cross-section.  Field defaults are the pydantic defaults. -/
structure Section where
  width : ℚ
  offset : ℚ := 0
  insets : Option (ℚ × ℚ) := none
  layer : Option LayerSpec := none
  port_names : Option String × Option String := (none, none)
  port_types : String × String := ("optical", "optical")
  name : Option String := none
  hidden : Bool := false
  simplify : Option ℚ := none
  deriving DecidableEq, Repr

instance : Inhabited Section := ⟨{ width := 0 }⟩

/-- `ComponentAlongPath` from src/gdsfactory/cross_section.py (lines 82-96).
The arbitrary Python `component: object` is embedded as an identifier. -/
structure ComponentAlongPath where
  component : String
  spacing : ℚ
  padding : ℚ := 0
  offset : ℚ := 0
  deriving DecidableEq, Repr

/-- `CrossSection` from src/gdsfactory/cross_section.py (lines 102-139).
The `info : dict[str, Any]` field is embedded as an association list. -/
structure CrossSection where
  sections : List Section := []
  components_along_path : List ComponentAlongPath := []
  radius : Option ℚ := none
  bbox_layers : Option (List LayerSpec) := none
  bbox_offsets : Option (List ℚ) := none
  info : List (String × PyVal) := []
  add_pins_function_name : Option String := none
  min_length : ℚ := 10 / 1000
  start_straight_length : ℚ := 10 / 1000
  end_straight_length : ℚ := 10 / 1000
  width_wide : Option ℚ := none
  auto_widen : Bool := false
  auto_widen_minimum_length : ℚ := 200
  taper_length : ℚ := 10
  gap : ℚ := 3
  deriving DecidableEq, Repr

instance : Inhabited CrossSection := ⟨{}⟩

/-- The `width` property (cross_section.py lines 145-147): `self.sections[0].width`.
Indexing an empty tuple raises IndexError. -/
def CrossSection.width (cs : CrossSection) : Except PyError ℚ :=
  match cs.sections with
  | [] => .error .indexError
  | s :: _ => .ok s.width

/-- The `layer` property (cross_section.py lines 149-151): `self.sections[0].layer`. -/
def CrossSection.layer (cs : CrossSection) : Except PyError (Option LayerSpec) :=
  match cs.sections with
  | [] => .error .indexError
  | s :: _ => .ok s.layer

/-- Attribute lookup `self.offset` on a CrossSection.  The class declares no
`offset` field and no `offset` property, and its pydantic config is
`extra="forbid"`, so the lookup raises AttributeError (cross_section.py
lines 121-139 list every declared field; lines 145-151 the only properties). -/
def CrossSection.offset_attr (_cs : CrossSection) : Except PyError ℚ :=
  .error .attributeError

/-- `get_xmin_xmax` from cross_section.py lines 209-221, translated line by line:
it reads `self.width` (IndexError on an empty sections tuple), then
`self.offset`, which is not an attribute of CrossSection, then would fold
min/max over the sections. -/
def CrossSection.get_xmin_xmax (cs : CrossSection) : Except PyError (ℚ × ℚ) := do
  let main_width ← cs.width
  let main_offset ← cs.offset_attr
  let xmin := main_offset - main_width / 2
  let xmax := main_offset + main_width / 2
  let r := cs.sections.foldl
    (fun acc s => (min acc.1 (s.offset - s.width / 2), max acc.2 (s.offset + s.width / 2)))
    (xmin, xmax)
  return r

/-- What the spec (and the method docstring) says `get_xmin_xmax` returns: the
minimum over all Sections of offset - width/2 and the maximum of
offset + width/2. -/
def get_xmin_xmax_spec (cs : CrossSection) : Option (ℚ × ℚ) :=
  match cs.sections with
  | [] => none
  | s :: rest =>
    some (rest.foldl
      (fun acc t => (min acc.1 (t.offset - t.width / 2), max acc.2 (t.offset + t.width / 2)))
      (s.offset - s.width / 2, s.offset + s.width / 2))

/-- `CrossSection.copy` from cross_section.py lines 153-159.  With a width it
copies every Section, replaces the first Section's width (IndexError when the
sections tuple is empty), and returns a functional update; with no width it
returns a plain copy.  The receiver is never mutated (the model is a pure
function, faithful to `frozen=True` and `model_copy`). -/
def CrossSection.copy (cs : CrossSection) (width : Option ℚ) : Except PyError CrossSection :=
  match width with
  | none => .ok cs
  | some w =>
    match cs.sections with
    | [] => .error .indexError
    | s0 :: rest => .ok { cs with sections := { s0 with width := w } :: rest }

/-- `setattr` on a constructed Section: pydantic `frozen=True`
(cross_section.py line 79) makes every field assignment raise a
ValidationError, whatever the field name and value. -/
def Section.setattr_model (_s : Section) (_field : String) (_v : PyVal) :
    Except PyError Section :=
  .error .validationError

/-- `setattr` on a constructed CrossSection: pydantic `frozen=True`
(cross_section.py line 139) makes every field assignment raise. -/
def CrossSection.setattr_model (_cs : CrossSection) (_field : String) (_v : PyVal) :
    Except PyError CrossSection :=
  .error .validationError

/-- pydantic structural equality on Section: field-by-field comparison. -/
def Section.py_eq (a b : Section) : Bool :=
  decide (a.width = b.width) && decide (a.offset = b.offset) &&
  decide (a.insets = b.insets) && decide (a.layer = b.layer) &&
  decide (a.port_names = b.port_names) && decide (a.port_types = b.port_types) &&
  decide (a.name = b.name) && decide (a.hidden = b.hidden) &&
  decide (a.simplify = b.simplify)

/-- pydantic structural equality on CrossSection: field-by-field comparison. -/
def CrossSection.py_eq (a b : CrossSection) : Bool :=
  decide (a.sections = b.sections) &&
  decide (a.components_along_path = b.components_along_path) &&
  decide (a.radius = b.radius) && decide (a.bbox_layers = b.bbox_layers) &&
  decide (a.bbox_offsets = b.bbox_offsets) && decide (a.info = b.info) &&
  decide (a.add_pins_function_name = b.add_pins_function_name) &&
  decide (a.min_length = b.min_length) &&
  decide (a.start_straight_length = b.start_straight_length) &&
  decide (a.end_straight_length = b.end_straight_length) &&
  decide (a.width_wide = b.width_wide) && decide (a.auto_widen = b.auto_widen) &&
  decide (a.auto_widen_minimum_length = b.auto_widen_minimum_length) &&
  decide (a.taper_length = b.taper_length) && decide (a.gap = b.gap)

/-- The `cross_section` factory, cross_section.py lines 244-329, translated
with all arguments explicit (Python defaults become the values passed at call
sites below).  `cladding_layers or ()` etc. become `getD []`; the Python
three-way `zip` truncates to the shortest input, exactly like the nested
`List.zip` here. -/
def cross_section (width : ℚ) (offset : ℚ) (layer : Option LayerSpec)
    (sections : List Section) (port_names : Option String × Option String)
    (port_types : String × String) (bbox_layers : Option (List LayerSpec))
    (bbox_offsets : Option (List ℚ)) (cladding_layers : Option (List LayerSpec))
    (cladding_offsets : Option (List ℚ)) (cladding_simplify : Option (List ℚ))
    (radius : Option ℚ) (add_pins_function_name : Option String) : CrossSection :=
  let cl := cladding_layers.getD []
  let co := cladding_offsets.getD []
  let csim := cladding_simplify.getD []
  let s : List Section :=
    [{ width := width, offset := offset, layer := layer,
       port_names := port_names, port_types := port_types }] ++ sections
  let s := s ++ (cl.zip (co.zip csim)).map
    (fun t => { width := width + 2 * t.2.1, layer := some t.1,
                simplify := some t.2.2 : Section })
  { sections := s, radius := radius, bbox_layers := bbox_layers,
    bbox_offsets := bbox_offsets, add_pins_function_name := add_pins_function_name }

/-! ## src/pp/name.py : parameter canonicalization for cache fingerprints -/

namespace PPName

/-- The Python parameter values `clean_value` (src/pp/name.py lines 94-121) is
applied to by the claims: ints, floats and strings.  The remaining branches of
the source (list, tuple, dict, Device, callable) are not reachable from the
scalar parameters the claims quantify over and are not embedded. -/
inductive NameVal where
  | intVal : ℤ → NameVal
  | floatVal : ℚ → NameVal
  | strVal : String → NameVal
  deriving DecidableEq, Repr

/-- The chunks of `name.split("_")`: consecutive separators yield empty
chunks, the empty string yields one empty chunk, as in Python. -/
def splitChunks : List Char → List (List Char)
  | [] => [[]]
  | c :: cs =>
    let r := splitChunks cs
    if c = '_' then [] :: r
    else
      match r with
      | [] => [[c]]
      | chunk :: rest => (c :: chunk) :: rest

/-- `join_first_letters` (name.py lines 10-12): the first letter of each
non-empty underscore-separated chunk. -/
def join_first_letters (name : String) : String :=
  String.mk (((splitChunks name.data).filter (fun x => x ≠ [])).map
    (fun x => x.headI))

/-- `str.replace(pat, rep)` for a single-character pattern and a
zero-or-one-character replacement — every pattern in `clean_name`'s
replace_map is one character, so the source's string replace specializes to
this character-level pass. -/
def replace1 (pat : Char) (rep : Option Char) : List Char → List Char
  | [] => []
  | c :: cs =>
    if c = pat then
      match rep with
      | some r => r :: replace1 pat rep cs
      | none => replace1 pat rep cs
    else c :: replace1 pat rep cs

/-- `clean_name` (name.py lines 65-91): the replacement chain, in the source's
dict order. -/
def clean_name (name : String) : String :=
  let n := name.data
  let n := replace1 ' ' (some '_') n
  let n := replace1 '!' (some '_') n
  let n := replace1 '#' (some '_') n
  let n := replace1 '%' (some '_') n
  let n := replace1 '(' none n
  let n := replace1 ')' none n
  let n := replace1 '*' (some '_') n
  let n := replace1 ',' (some '_') n
  let n := replace1 '-' (some 'm') n
  let n := replace1 '.' (some 'p') n
  let n := replace1 '/' (some '_') n
  let n := replace1 ':' (some '_') n
  let n := replace1 '=' none n
  let n := replace1 '@' (some '_') n
  let n := replace1 '[' none n
  let n := replace1 ']' none n
  String.mk n

/-- `str.upper()` on ASCII names. -/
def pyUpper (s : String) : String := String.mk (s.data.map Char.toUpper)

/-- Python `int(q)`: truncation toward zero. -/
def pyInt (q : ℚ) : ℤ := if 0 ≤ q then ⌊q⌋ else ⌈q⌉

/-- Round half to even, the rounding of Python's fixed-point formatting. -/
def round_half_even (q : ℚ) : ℤ :=
  let f := ⌊q⌋
  let frac := q - f
  if frac < 1 / 2 then f
  else if 1 / 2 < frac then f + 1
  else if 2 ∣ f then f else f + 1

/-- Python `f"{q:.2f}"` on the exact embedded value. -/
def format_2f (q : ℚ) : String :=
  let n := round_half_even (q * 100)
  let sign := if n < 0 then "-" else ""
  let a := n.natAbs
  let cents := a % 100
  sign ++ toString (a / 100) ++ "." ++ (if cents < 10 then "0" else "") ++ toString cents

/-- `clean_value` (name.py lines 94-121): ints keep their repr; a float
strictly between 1e-3 and 1 becomes `int(value*1e3)` nanometers with an `n`
suffix, any other float is formatted with two decimals; strings go through
`clean_name`. -/
def clean_value : NameVal → String
  | .intVal n => toString n
  | .floatVal v =>
    if 1 > v ∧ v > 1 / 1000 then toString (pyInt (v * 1000)) ++ "n" else format_2f v
  | .strVal s => clean_name s

/-- Insert a key-value pair in front of the first entry with a key not
smaller than its own. -/
def insertByKey (kv : String × NameVal) :
    List (String × NameVal) → List (String × NameVal)
  | [] => [kv]
  | x :: xs => if kv.1 ≤ x.1 then kv :: x :: xs else x :: insertByKey kv xs

/-- `sorted(kwargs)`: keyword arguments sorted by key (lexicographic on code
points, as in Python; stable insertion sort). -/
def sortKwargs : List (String × NameVal) → List (String × NameVal)
  | [] => []
  | kv :: rest => insertByKey kv (sortKwargs rest)

/-- `dict2name` (name.py lines 38-50): sorted keys not in `ignore_from_name`,
each rendered as upper-cased first letters followed by the cleaned value,
joined with underscores after the prefix, then cleaned. -/
def dict2name (prefix_ : String) (ignore_from_name : List String)
    (kwargs : List (String × NameVal)) : String :=
  let kv := (sortKwargs kwargs).filterMap (fun kv =>
    if kv.1 ∈ ignore_from_name then none
    else some (pyUpper (join_first_letters kv.1) ++ clean_value kv.2))
  clean_name (prefix_ ++ "_".intercalate kv)

/-- `dict2hash` (name.py lines 27-35) feeds `f"{key}{value}"` for each sorted,
non-ignored key into sha256 and returns the digest.  The digest is a pure
function of the concatenated byte string modelled here, so two parameter sets
with equal `dict2hash_input` get the same fingerprint hash. -/
def dict2hash_input (ignore_from_name : List String)
    (kwargs : List (String × NameVal)) : String :=
  (sortKwargs kwargs).foldl (fun acc kv =>
    if kv.1 ∈ ignore_from_name then acc else acc ++ kv.1 ++ clean_value kv.2) ""

end PPName

/-! ## src/pp/routing : the Manhattan router

The entry points `get_route` / `get_route_from_waypoints`
(src/pp/routing/get_route.py) delegate to `round_corners` and
`route_manhattan` from src/pp/routing/manhattan.py, which is not among the
provided sources; those two are therefore modelled from the spec (spec.md
sections 4.3 and 8). -/

namespace PPRoute

/-- A placed route piece: a straight run, a 90-degree bend (with its arc
length), or a width taper. -/
inductive Piece where
  | straightPiece (length width : ℚ)
  | bendPiece (length : ℚ)
  | taperPiece (length width1 width2 : ℚ)
  deriving DecidableEq, Repr

/-- The length a piece contributes to the route. -/
def Piece.len : Piece → ℚ
  | .straightPiece l _ => l
  | .bendPiece l => l
  | .taperPiece l _ _ => l

def Piece.isTaper : Piece → Bool
  | .taperPiece _ _ _ => true
  | _ => false

def Piece.isBend : Piece → Bool
  | .bendPiece _ => true
  | _ => false

def Piece.isStraight : Piece → Bool
  | .straightPiece _ _ => true
  | _ => false

/-- A Route: the placed references and the accumulated total length
(get_route.py docstring lines 27-32). -/
structure Route where
  references : List Piece
  length : ℚ
  deriving DecidableEq, Repr

/-- Modelled from the spec (spec.md section 4.3, step 6: "Accumulate total
length as the sum of all segment/bend/taper lengths"): a route's length is
accumulated left to right while the pieces are placed. -/
def mk_route (pieces : List Piece) : Route :=
  ⟨pieces, pieces.foldl (fun acc p => acc + p.len) 0⟩

/-- Modelled from the spec (spec.md section 4.3, step 5; `round_corners` of
src/pp/routing/manhattan.py is not under src/): placing one straight run of
length `run`.  When auto-widen is on and the run's length exceeds the
configured auto-widen minimum length, a taper is inserted at each end of the
widened straight; otherwise a straight is placed directly. -/
def place_straight_run (auto_widen : Bool) (width width_wide : ℚ)
    (auto_widen_minimum_length taper_length : ℚ) (run : ℚ) : List Piece :=
  if auto_widen && decide (auto_widen_minimum_length < run) then
    [.taperPiece taper_length width width_wide,
     .straightPiece (run - 2 * taper_length) width_wide,
     .taperPiece taper_length width_wide width]
  else
    [.straightPiece run width]

/-- Modelled from the spec: the straight runs of a Manhattan backbone, with a
bend reference between consecutive runs (spec.md section 4.3, steps 4-5). -/
def place_runs (auto_widen : Bool) (width width_wide : ℚ)
    (auto_widen_minimum_length taper_length bend_length : ℚ) : List ℚ → List Piece
  | [] => []
  | [run] =>
    place_straight_run auto_widen width width_wide auto_widen_minimum_length
      taper_length run
  | run :: rest =>
    place_straight_run auto_widen width width_wide auto_widen_minimum_length
      taper_length run
      ++ Piece.bendPiece bend_length
      :: place_runs auto_widen width width_wide auto_widen_minimum_length
          taper_length bend_length rest

/-- Modelled from the spec: `round_corners` builds the Route for a backbone's
straight runs, accumulating the length while placing. -/
def round_corners (auto_widen : Bool) (width width_wide : ℚ)
    (auto_widen_minimum_length taper_length bend_length : ℚ) (runs : List ℚ) :
    Route :=
  mk_route (place_runs auto_widen width width_wide auto_widen_minimum_length
    taper_length bend_length runs)

/-- A routing port: name, position, orientation angle in degrees, width
(src/pp/port.py is consumed by get_route.py; the fields are the ones the
router reads). -/
structure Port where
  name : String
  x : ℚ
  y : ℚ
  orientation : ℚ
  width : ℚ
  deriving DecidableEq, Repr

/-- The axis-aligned unit direction of an orientation angle, reduced modulo
360; `none` for a non-Manhattan angle. -/
def dirOf (o : ℚ) : Option (ℤ × ℤ) :=
  let m := o - 360 * ⌊o / 360⌋
  if m = 0 then some (1, 0)
  else if m = 90 then some (0, 1)
  else if m = 180 then some (-1, 0)
  else if m = 270 then some (0, -1)
  else none

/-- Modelled from the spec (spec.md section 4.3, step 2): the ports face each
other along a shared axis with matching offset — opposite directions, the
separation collinear with the first port's axis, and the first port pointing
toward the second. -/
def faces_each_other (p1 p2 : Port) : Bool :=
  match dirOf p1.orientation, dirOf p2.orientation with
  | some d1, some d2 =>
    decide (d2 = (-d1.1, -d1.2)) &&
    decide ((p2.y - p1.y) * d1.1 = (p2.x - p1.x) * d1.2) &&
    decide (0 < (p2.x - p1.x) * d1.1 + (p2.y - p1.y) * d1.2)
  | _, _ => false

/-- Modelled from the spec (spec.md section 4.3; `route_manhattan` of
src/pp/routing/manhattan.py is not under src/): zero bends and a single
straight when the ports already face each other along a shared axis; one bend
when the directions are perpendicular and both legs clear the bend radius and
the minimum straight length; otherwise a two-bend S/Z route through an elbow;
`none` models a RoutingError. -/
def route_manhattan (p1 p2 : Port) (radius bend_length min_straight : ℚ) :
    Option Route :=
  match dirOf p1.orientation, dirOf p2.orientation with
  | some d1, some d2 =>
    let dx := p2.x - p1.x
    let dy := p2.y - p1.y
    if faces_each_other p1 p2 then
      some (mk_route [.straightPiece (dx * d1.1 + dy * d1.2) p1.width])
    else if d1.1 * d2.1 + d1.2 * d2.2 = 0 then
      let a := dx * d1.1 + dy * d1.2 - radius
      let b := -(dx * d2.1 + dy * d2.2) - radius
      if min_straight ≤ a ∧ min_straight ≤ b then
        some (mk_route [.straightPiece a p1.width, .bendPiece bend_length,
          .straightPiece b p1.width])
      else none
    else
      let along := dx * d1.1 + dy * d1.2
      let across := dx * (-d1.2) + dy * d1.1
      let l1 := along / 2 - radius
      let l2 := |across| - 2 * radius
      if min_straight ≤ l1 ∧ min_straight ≤ l2 then
        some (mk_route [.straightPiece l1 p1.width, .bendPiece bend_length,
          .straightPiece l2 p1.width, .bendPiece bend_length,
          .straightPiece l1 p1.width])
      else none
  | _, _ => none

end PPRoute

/-! ## connect: the placement and connection resolver

`connect` is exercised by src/gdsfactory/samples/demo/pcell.py, but the
implementation (gdsfactory/component_reference.py) is not among the provided
sources; it is modelled from the spec (spec.md section 4.4). -/

namespace GFConnect

/-- A 2D vector over exact rationals. -/
abbrev Vec2 := ℚ × ℚ

/-- Complex-number style product: composition of rotations, and the action of
a rotation on a point. -/
def cmul (u v : Vec2) : Vec2 := (u.1 * v.1 - u.2 * v.2, u.1 * v.2 + u.2 * v.1)

def vadd (u v : Vec2) : Vec2 := (u.1 + v.1, u.2 + v.2)

def vneg (u : Vec2) : Vec2 := (-u.1, -u.2)

/-- Conjugate: the inverse of a unit rotation. -/
def conj (u : Vec2) : Vec2 := (u.1, -u.2)

/-- Modelled from the spec: a named, oriented anchor point.  The orientation
angle is embedded as its unit direction vector `dir`, so "orientation angles
differ by exactly 180 degrees" is `dir = vneg other.dir`. -/
structure GPort where
  name : String
  pos : Vec2
  dir : Vec2
  deriving DecidableEq, Repr

/-- A rigid transform: rotation (a unit vector) followed by translation. -/
structure RigidTransform where
  rot : Vec2
  tra : Vec2
  deriving DecidableEq, Repr

/-- Apply a rigid transform to a port: rotate the position and the
orientation, then translate the position. -/
def applyT (t : RigidTransform) (p : GPort) : GPort :=
  ⟨p.name, vadd (cmul t.rot p.pos) t.tra, cmul t.rot p.dir⟩

/-- Modelled from the spec (spec.md section 4.4; the implementation in
gdsfactory/component_reference.py is not under src/): the rigid transform of
`connect` rotates the named port's direction onto the opposite of the target
port's direction and then translates the rotated port position onto the
target position. -/
def connect_transform (p other : GPort) : RigidTransform :=
  let u := cmul (vneg other.dir) (conj p.dir)
  ⟨u, vadd other.pos (vneg (cmul u p.pos))⟩

/-- Modelled from the spec: `connect(port_name, other_port)` finds the named
port of the reference and applies the one rigid transform mapping it onto
`other_port` to every port the reference owns; `none` when no port has the
given name. -/
def connect (ports : List GPort) (port_name : String) (other : GPort) :
    Option (List GPort) :=
  match ports.find? (fun q => q.name = port_name) with
  | none => none
  | some p => some (ports.map (applyT (connect_transform p other)))

end GFConnect

/-! ## Shared helper lemmas -/

/-- Accumulating piece lengths with a left fold equals the sum of the mapped
lengths. -/
theorem PPRoute.foldl_add_len (l : List PPRoute.Piece) (a : ℚ) :
    l.foldl (fun acc p => acc + p.len) a = a + (l.map PPRoute.Piece.len).sum := by
  induction l generalizing a with
  | nil => simp
  | cons p l ih =>
    simp only [List.foldl_cons, List.map_cons, List.sum_cons, ih]
    ring

/-- The length stored by `mk_route` is the sum of the piece lengths of its
references. -/
theorem PPRoute.mk_route_length (ps : List PPRoute.Piece) :
    (PPRoute.mk_route ps).length =
      ((PPRoute.mk_route ps).references.map PPRoute.Piece.len).sum := by
  simp [PPRoute.mk_route, PPRoute.foldl_add_len]

/-- Inversion for `dirOf`: the only directions it produces are the four axis
directions. -/
theorem PPRoute.dirOf_cases (o : ℚ) (d : ℤ × ℤ) (h : PPRoute.dirOf o = some d) :
    d = (1, 0) ∨ d = (0, 1) ∨ d = (-1, 0) ∨ d = (0, -1) := by
  simp only [PPRoute.dirOf] at h
  split_ifs at h
  all_goals
    first
      | exact Option.noConfusion h
      | exact Or.inl (Option.some.inj h).symm
      | exact Or.inr (Or.inl (Option.some.inj h).symm)
      | exact Or.inr (Or.inr (Or.inl (Option.some.inj h).symm))
      | exact Or.inr (Or.inr (Or.inr (Option.some.inj h).symm))

/-- Inversion for `faces_each_other`: both orientations are Manhattan, the
directions are opposite, the separation is collinear with the first axis, and
the first port points toward the second. -/
theorem PPRoute.faces_each_other_elim (p1 p2 : PPRoute.Port)
    (h : PPRoute.faces_each_other p1 p2 = true) :
    ∃ d1 d2, PPRoute.dirOf p1.orientation = some d1 ∧
      PPRoute.dirOf p2.orientation = some d2 ∧
      d2 = (-d1.1, -d1.2) ∧
      (p2.y - p1.y) * d1.1 = (p2.x - p1.x) * d1.2 ∧
      0 < (p2.x - p1.x) * d1.1 + (p2.y - p1.y) * d1.2 := by
  unfold PPRoute.faces_each_other at h
  split at h
  case _ d1 d2 heq1 heq2 =>
    simp only [Bool.and_eq_true, decide_eq_true_eq] at h
    exact ⟨d1, d2, heq1, heq2, h.1.1, h.1.2, h.2⟩
  case _ => exact absurd h (by simp)

/-- A float strictly between 1e-3 and 1 cleans to its floor in nanometers
followed by `n`. -/
theorem PPName.clean_value_float_nm (q : ℚ) (n : ℤ) (h1 : 1 > q)
    (h2 : q > 1 / 1000) (h3 : ⌊q * 1000⌋ = n) :
    PPName.clean_value (PPName.NameVal.floatVal q) = toString n ++ "n" := by
  simp only [PPName.clean_value]
  rw [if_pos ⟨h1, h2⟩]
  simp only [PPName.pyInt]
  rw [if_pos (by nlinarith), h3]

/-- `dict2name` on a single keyword argument depends on the value only
through `clean_value`. -/
theorem PPName.dict2name_single_congr (k p : String) (v w : PPName.NameVal)
    (h : PPName.clean_value v = PPName.clean_value w) :
    PPName.dict2name p [] [(k, v)] = PPName.dict2name p [] [(k, w)] := by
  simp [PPName.dict2name, PPName.sortKwargs, PPName.insertByKey, h]

/-- The sha256 input of `dict2hash` on a single keyword argument depends on
the value only through `clean_value`. -/
theorem PPName.dict2hash_single_congr (k : String) (v w : PPName.NameVal)
    (h : PPName.clean_value v = PPName.clean_value w) :
    PPName.dict2hash_input [] [(k, v)] = PPName.dict2hash_input [] [(k, w)] := by
  simp [PPName.dict2hash_input, PPName.sortKwargs, PPName.insertByKey, h]

/-! ## The claims -/

/-- C1: the claim says `get_xmin_xmax()` returns the min/max transverse extent
and does not raise; the code reads `self.offset`, which CrossSection does not
define, so for every CrossSection with non-empty sections the call raises
AttributeError (and IndexError on empty sections, from the `width` property).
This contradicts the method's own docstring, so the code, not the claim, is
wrong. -/
theorem C1_get_xmin_xmax_raises (cs : CrossSection) :
    cs.get_xmin_xmax =
      Except.error
        (if cs.sections.isEmpty then PyError.indexError else PyError.attributeError) := by
  cases h : cs.sections <;>
    simp [CrossSection.get_xmin_xmax, CrossSection.width, CrossSection.offset_attr, h,
      Bind.bind, Except.bind]

/-- C2 counterexample: one cladding layer and one cladding offset but no
explicit cladding_simplify list — the three-way zip truncates to the empty
simplify tuple, so no cladding Section is added at all: the resulting
CrossSection has only the main Section, not the 2 sections the claim
predicts. -/
theorem C2_counterexample :
    (cross_section (1 / 2) 0 (some (.nameRef "WG")) [] (some "o1", some "o2")
      ("optical", "optical") none none (some [LayerSpec.nameRef "SLAB90"])
      (some [3]) none (some 10) none).sections.length = 1 := by
  rfl

/-- C2 (amended): with n cladding layers, n cladding offsets AND an explicit
cladding_simplify list of length n, the factory appends, after the main
Section and the user-supplied extra Sections, exactly n cladding Sections, the
i-th of width `width + 2*cladding_offsets[i]` on layer `cladding_layers[i]`. -/
theorem C2_cladding_sections (w off : ℚ) (layer : Option LayerSpec)
    (extra : List Section) (pn : Option String × Option String)
    (pt : String × String) (bl : Option (List LayerSpec)) (bo : Option (List ℚ))
    (cl : List LayerSpec) (co : List ℚ) (csim : List ℚ) (rad : Option ℚ)
    (apfn : Option String) (i : Nat) (li : LayerSpec) (oi si : ℚ)
    (hco : co.length = cl.length) (hcs : csim.length = cl.length)
    (hli : cl[i]? = some li) (hoi : co[i]? = some oi) (hsi : csim[i]? = some si) :
    (cross_section w off layer extra pn pt bl bo (some cl) (some co) (some csim)
        rad apfn).sections.length = 1 + extra.length + cl.length ∧
    (cross_section w off layer extra pn pt bl bo (some cl) (some co) (some csim)
        rad apfn).sections[1 + extra.length + i]? =
      some { width := w + 2 * oi, offset := 0, insets := none, layer := some li,
             port_names := (none, none), port_types := ("optical", "optical"),
             name := none, hidden := false, simplify := some si } := by
  obtain ⟨hilt, hgl⟩ := List.getElem?_eq_some.mp hli
  obtain ⟨hiot, hgo⟩ := List.getElem?_eq_some.mp hoi
  obtain ⟨hist, hgs⟩ := List.getElem?_eq_some.mp hsi
  have hzl : (cl.zip (co.zip csim)).length = cl.length := by
    simp [List.length_zip, hco, hcs]
  constructor
  · simp [cross_section, List.length_append, List.length_map, hzl]
    omega
  · have hlen1 :
        ([({ width := w, offset := off, layer := layer, port_names := pn,
             port_types := pt } : Section)] ++ extra).length = 1 + extra.length := by
      simp [List.length_append]
      omega
    simp only [cross_section, Option.getD_some]
    rw [List.getElem?_append_right (by simp; omega)]
    have hidx :
        1 + extra.length + i -
          ([({ width := w, offset := off, layer := layer, port_names := pn,
               port_types := pt } : Section)] ++ extra).length = i := by
      simp [List.length_append]
      omega
    rw [hidx, List.getElem?_map]
    have hzi : i < (cl.zip (co.zip csim)).length := by omega
    rw [List.getElem?_eq_getElem hzi, List.getElem_zip, List.getElem_zip]
    simp [hgl, hgo, hgs]

/-- C2 witness: one cladding layer, offset 3 and simplify 50nm yields exactly
one cladding Section of width `0.5 + 2*3` on that layer. -/
theorem C2_cladding_sections_witness :
    (cross_section (1 / 2) 0 (some (.nameRef "WG")) [] (some "o1", some "o2")
        ("optical", "optical") none none (some [LayerSpec.nameRef "SLAB90"])
        (some [3]) (some [1 / 20]) (some 10) none).sections.length = 2 ∧
    (cross_section (1 / 2) 0 (some (.nameRef "WG")) [] (some "o1", some "o2")
        ("optical", "optical") none none (some [LayerSpec.nameRef "SLAB90"])
        (some [3]) (some [1 / 20]) (some 10) none).sections[1]? =
      some { width := 1 / 2 + 2 * 3, offset := 0, insets := none,
             layer := some (LayerSpec.nameRef "SLAB90"),
             port_names := (none, none), port_types := ("optical", "optical"),
             name := none, hidden := false, simplify := some (1 / 20) } :=
  C2_cladding_sections (1 / 2) 0 (some (.nameRef "WG")) [] (some "o1", some "o2")
    ("optical", "optical") none none [LayerSpec.nameRef "SLAB90"] [3] [1 / 20]
    (some 10) none 0 (LayerSpec.nameRef "SLAB90") 3 (1 / 20) rfl rfl rfl rfl rfl

/-- C3 counterexample: the claim quantifies over every CrossSection, but on a
CrossSection whose sections tuple is empty, `copy(width=...)` raises
IndexError at `sections[0]` instead of returning a new CrossSection. -/
theorem C3_counterexample :
    CrossSection.copy {} (some 1) = Except.error PyError.indexError := rfl

/-- C3 (amended): for every CrossSection with a non-empty sections tuple,
`copy(width=w)` returns a new CrossSection whose main Section has width w,
whose remaining Sections equal the original's, and whose every other field is
unchanged; the receiver itself is not mutated (the embedding of the frozen
model is a pure function). -/
theorem C3_copy_width (cs : CrossSection) (s0 : Section) (rest : List Section)
    (w : ℚ) (h : cs.sections = s0 :: rest) :
    ∃ cs2, cs.copy (some w) = Except.ok cs2 ∧
      cs2.sections = { s0 with width := w } :: rest ∧
      cs2.radius = cs.radius ∧
      cs2.min_length = cs.min_length ∧
      cs2.start_straight_length = cs.start_straight_length ∧
      cs2.end_straight_length = cs.end_straight_length ∧
      cs2.width_wide = cs.width_wide ∧
      cs2.auto_widen = cs.auto_widen ∧
      cs2.auto_widen_minimum_length = cs.auto_widen_minimum_length ∧
      cs2.taper_length = cs.taper_length ∧
      cs2.gap = cs.gap ∧
      cs2.bbox_layers = cs.bbox_layers ∧
      cs2.bbox_offsets = cs.bbox_offsets := by
  refine ⟨{ cs with sections := { s0 with width := w } :: rest }, ?_, rfl, rfl, rfl,
    rfl, rfl, rfl, rfl, rfl, rfl, rfl, rfl, rfl⟩
  simp [CrossSection.copy, h]

/-- C3 witness: copying a one-section CrossSection with width 2. -/
theorem C3_copy_width_witness :
    ∃ cs2,
      CrossSection.copy { sections := [{ width := 1 / 2 }] } (some 2) =
        Except.ok cs2 ∧
      cs2.sections = [{ width := 2 }] ∧
      cs2.radius = ({ sections := [{ width := 1 / 2 }] } : CrossSection).radius ∧
      cs2.min_length = ({ sections := [{ width := 1 / 2 }] } : CrossSection).min_length ∧
      cs2.start_straight_length =
        ({ sections := [{ width := 1 / 2 }] } : CrossSection).start_straight_length ∧
      cs2.end_straight_length =
        ({ sections := [{ width := 1 / 2 }] } : CrossSection).end_straight_length ∧
      cs2.width_wide = ({ sections := [{ width := 1 / 2 }] } : CrossSection).width_wide ∧
      cs2.auto_widen = ({ sections := [{ width := 1 / 2 }] } : CrossSection).auto_widen ∧
      cs2.auto_widen_minimum_length =
        ({ sections := [{ width := 1 / 2 }] } : CrossSection).auto_widen_minimum_length ∧
      cs2.taper_length = ({ sections := [{ width := 1 / 2 }] } : CrossSection).taper_length ∧
      cs2.gap = ({ sections := [{ width := 1 / 2 }] } : CrossSection).gap ∧
      cs2.bbox_layers = ({ sections := [{ width := 1 / 2 }] } : CrossSection).bbox_layers ∧
      cs2.bbox_offsets = ({ sections := [{ width := 1 / 2 }] } : CrossSection).bbox_offsets :=
  C3_copy_width { sections := [{ width := 1 / 2 }] } { width := 1 / 2 } [] 2 rfl

/-- C4: with auto-widen enabled a straight run gets a taper at each end (two
tapers) exactly when its length exceeds the auto-widen minimum length; with
auto-widen disabled a straight is placed directly; in particular the spec's
Scenario D (width 0.5, wide width 2.0, minimum 200, run 300) gets exactly two
tapers. -/
theorem C4_auto_widen_taper_insertion (w ww ml tl run : ℚ) :
    ((PPRoute.place_straight_run true w ww ml tl run).filter
        PPRoute.Piece.isTaper).length = (if ml < run then 2 else 0) ∧
    PPRoute.place_straight_run false w ww ml tl run =
      [PPRoute.Piece.straightPiece run w] ∧
    ((PPRoute.place_straight_run true (1 / 2) 2 200 10 300).filter
        PPRoute.Piece.isTaper).length = 2 := by
  refine ⟨?_, rfl, by norm_num [PPRoute.place_straight_run, PPRoute.Piece.isTaper]⟩
  by_cases h : ml < run <;>
    simp [PPRoute.place_straight_run, h, PPRoute.Piece.isTaper]

/-- C5: every Route the router builds (round_corners over a backbone's runs,
and route_manhattan between two ports) has `length` equal to the sum of the
lengths of its straight, bend and taper references, within 1e-9. -/
theorem C5_route_length_sum (aw : Bool) (w ww ml tl bl : ℚ) (runs : List ℚ)
    (p1 p2 : PPRoute.Port) (radius bend_length min_straight : ℚ)
    (r : PPRoute.Route) :
    (|(PPRoute.round_corners aw w ww ml tl bl runs).length -
        ((PPRoute.round_corners aw w ww ml tl bl runs).references.map
          PPRoute.Piece.len).sum| ≤ 1 / 1000000000) ∧
    (PPRoute.route_manhattan p1 p2 radius bend_length min_straight = some r →
      |r.length - (r.references.map PPRoute.Piece.len).sum| ≤ 1 / 1000000000) := by
  constructor
  · rw [PPRoute.round_corners, PPRoute.mk_route_length]
    simp
  · intro h
    simp only [PPRoute.route_manhattan] at h
    split at h
    case _ d1 d2 heq1 heq2 =>
      split at h
      · obtain rfl := Option.some.inj h
        rw [PPRoute.mk_route_length]
        simp
      · split at h
        · split at h
          · obtain rfl := Option.some.inj h
            rw [PPRoute.mk_route_length]
            simp
          · exact absurd h (by simp)
        · split at h
          · obtain rfl := Option.some.inj h
            rw [PPRoute.mk_route_length]
            simp
          · exact absurd h (by simp)
    case _ => exact absurd h (by simp)

/-- C6: when the two ports already face each other along a shared axis with
matching offset and are separated by dx = 50, dy = 0, route_manhattan returns
a Route with zero bend references, exactly one straight, and length 50. -/
theorem C6_zero_bend_route (p1 p2 : PPRoute.Port)
    (radius bend_length min_straight : ℚ)
    (hface : PPRoute.faces_each_other p1 p2 = true)
    (hdx : p2.x - p1.x = 50) (hdy : p2.y - p1.y = 0) :
    ∃ r, PPRoute.route_manhattan p1 p2 radius bend_length min_straight = some r ∧
      (r.references.filter PPRoute.Piece.isBend).length = 0 ∧
      (r.references.filter PPRoute.Piece.isStraight).length = 1 ∧
      r.length = 50 := by
  obtain ⟨d1, d2, heq1, heq2, hd2, hcol, hpos⟩ :=
    PPRoute.faces_each_other_elim p1 p2 hface
  rw [hdx, hdy] at hcol hpos
  have hd1 : d1 = (1, 0) := by
    rcases PPRoute.dirOf_cases _ _ heq1 with rfl | rfl | rfl | rfl
    · rfl
    · exfalso
      norm_num at hcol
    · exfalso
      norm_num at hpos
    · exfalso
      norm_num at hcol
  subst hd1
  refine ⟨PPRoute.mk_route
    [PPRoute.Piece.straightPiece
      ((p2.x - p1.x) * ((1 : ℤ) : ℚ) + (p2.y - p1.y) * ((0 : ℤ) : ℚ)) p1.width],
    ?_, ?_, ?_, ?_⟩
  · simp only [PPRoute.route_manhattan, heq1, heq2, hface, if_true]
  · simp [PPRoute.mk_route, PPRoute.Piece.isBend]
  · simp [PPRoute.mk_route, PPRoute.Piece.isStraight]
  · simp only [PPRoute.mk_route, List.foldl_cons, List.foldl_nil, PPRoute.Piece.len]
    rw [hdx, hdy]
    norm_num

/-- C6 witness: a port at the origin facing east and a port 50 to its right
facing west. -/
theorem C6_zero_bend_route_witness :
    ∃ r, PPRoute.route_manhattan ⟨"o1", 0, 0, 0, 1 / 2⟩ ⟨"o2", 50, 0, 180, 1 / 2⟩
        10 (157 / 10) (1 / 100) = some r ∧
      (r.references.filter PPRoute.Piece.isBend).length = 0 ∧
      (r.references.filter PPRoute.Piece.isStraight).length = 1 ∧
      r.length = 50 :=
  C6_zero_bend_route ⟨"o1", 0, 0, 0, 1 / 2⟩ ⟨"o2", 50, 0, 180, 1 / 2⟩ 10 (157 / 10)
    (1 / 100)
    (by
      have h1 : PPRoute.dirOf (0 : ℚ) = some (1, 0) := by norm_num [PPRoute.dirOf]
      have h2 : PPRoute.dirOf (180 : ℚ) = some (-1, 0) := by norm_num [PPRoute.dirOf]
      unfold PPRoute.faces_each_other
      rw [show (⟨"o1", 0, 0, 0, 1 / 2⟩ : PPRoute.Port).orientation = (0 : ℚ) from rfl,
        show (⟨"o2", 50, 0, 180, 1 / 2⟩ : PPRoute.Port).orientation = (180 : ℚ) from rfl,
        h1, h2]
      norm_num)
    (by norm_num) (by norm_num)

/-- C7: Sections and CrossSections are immutable after construction — every
field assignment raises — and equality is structural: the boolean
field-by-field comparison pydantic performs holds exactly when the values are
equal, so two values built from equal parameters compare equal. -/
theorem C7_frozen_and_structural (s t : Section) (cs ct : CrossSection)
    (fld : String) (v : PyVal) :
    Section.setattr_model s fld v = Except.error PyError.validationError ∧
    CrossSection.setattr_model cs fld v = Except.error PyError.validationError ∧
    (Section.py_eq s t = true ↔ s = t) ∧
    (CrossSection.py_eq cs ct = true ↔ cs = ct) := by
  refine ⟨rfl, rfl, ?_, ?_⟩
  · cases s; cases t
    simp [Section.py_eq, Section.mk.injEq, and_assoc]
  · cases cs; cases ct
    simp [CrossSection.py_eq, CrossSection.mk.injEq, and_assoc]

/-- C8: connect maps the named port exactly onto the target port's position
with direction exactly opposite (orientations 180 degrees apart), and applies
the one rigid transform (rotation then translation) to every port of the
reference. -/
theorem C8_connect_aligns (ports : List GFConnect.GPort) (pname : String)
    (other p : GFConnect.GPort)
    (hfind : ports.find? (fun q => q.name = pname) = some p)
    (hunit : p.dir.1 ^ 2 + p.dir.2 ^ 2 = 1) :
    GFConnect.connect ports pname other =
      some (ports.map (GFConnect.applyT (GFConnect.connect_transform p other))) ∧
    (GFConnect.applyT (GFConnect.connect_transform p other) p).pos = other.pos ∧
    (GFConnect.applyT (GFConnect.connect_transform p other) p).dir =
      GFConnect.vneg other.dir := by
  refine ⟨by simp [GFConnect.connect, hfind], ?_, ?_⟩
  · simp only [GFConnect.applyT, GFConnect.connect_transform, GFConnect.cmul,
      GFConnect.vadd, GFConnect.vneg, GFConnect.conj]
    exact Prod.ext (by ring) (by ring)
  · simp only [GFConnect.applyT, GFConnect.connect_transform, GFConnect.cmul,
      GFConnect.vadd, GFConnect.vneg, GFConnect.conj]
    refine Prod.ext ?_ ?_
    · linear_combination (-other.dir.1) * hunit
    · linear_combination (-other.dir.2) * hunit

/-- C8 witness: a one-port reference connected onto a target port at (5,3). -/
theorem C8_connect_aligns_witness :
    GFConnect.connect [⟨"o1", (0, 0), (1, 0)⟩] "o1" ⟨"x", (5, 3), (1, 0)⟩ =
      some ([⟨"o1", (0, 0), (1, 0)⟩].map
        (GFConnect.applyT
          (GFConnect.connect_transform ⟨"o1", (0, 0), (1, 0)⟩ ⟨"x", (5, 3), (1, 0)⟩))) ∧
    (GFConnect.applyT
        (GFConnect.connect_transform ⟨"o1", (0, 0), (1, 0)⟩ ⟨"x", (5, 3), (1, 0)⟩)
        ⟨"o1", (0, 0), (1, 0)⟩).pos = (⟨"x", (5, 3), (1, 0)⟩ : GFConnect.GPort).pos ∧
    (GFConnect.applyT
        (GFConnect.connect_transform ⟨"o1", (0, 0), (1, 0)⟩ ⟨"x", (5, 3), (1, 0)⟩)
        ⟨"o1", (0, 0), (1, 0)⟩).dir =
      GFConnect.vneg (⟨"x", (5, 3), (1, 0)⟩ : GFConnect.GPort).dir :=
  C8_connect_aligns [⟨"o1", (0, 0), (1, 0)⟩] "o1" ⟨"x", (5, 3), (1, 0)⟩
    ⟨"o1", (0, 0), (1, 0)⟩ (by decide) (by norm_num)

/-- C9: the `width` and `layer` properties are defined exactly on non-empty
sections tuples: there they return the main Section's width and layer, and on
an empty sections tuple both raise IndexError. -/
theorem C9_width_layer_access (cs : CrossSection) (s0 : Section)
    (rest : List Section) :
    (cs.sections = s0 :: rest →
      cs.width = Except.ok s0.width ∧ cs.layer = Except.ok s0.layer) ∧
    (cs.sections = [] →
      cs.width = Except.error PyError.indexError ∧
      cs.layer = Except.error PyError.indexError) := by
  constructor <;> intro h <;> simp [CrossSection.width, CrossSection.layer, h]

/-- C10: parameter canonicalization is not injective on floats: 0.2501 and
0.2503 are distinct, both clean to "250n", and dict2name and the byte string
dict2hash feeds to sha256 agree on the two parameter sets, so both get the
same name and the same fingerprint hash. -/
theorem C10_clean_value_collision :
    (2501 / 10000 : ℚ) ≠ (2503 / 10000 : ℚ) ∧
    PPName.clean_value (PPName.NameVal.floatVal (2501 / 10000)) = "250n" ∧
    PPName.clean_value (PPName.NameVal.floatVal (2503 / 10000)) = "250n" ∧
    PPName.dict2name "" [] [("width", PPName.NameVal.floatVal (2501 / 10000))] =
      PPName.dict2name "" [] [("width", PPName.NameVal.floatVal (2503 / 10000))] ∧
    PPName.dict2hash_input [] [("width", PPName.NameVal.floatVal (2501 / 10000))] =
      PPName.dict2hash_input [] [("width", PPName.NameVal.floatVal (2503 / 10000))] := by
  have e1 : PPName.clean_value (PPName.NameVal.floatVal (2501 / 10000)) = "250n" := by
    rw [PPName.clean_value_float_nm (2501 / 10000) 250 (by norm_num) (by norm_num)
      (by norm_num)]
    rfl
  have e2 : PPName.clean_value (PPName.NameVal.floatVal (2503 / 10000)) = "250n" := by
    rw [PPName.clean_value_float_nm (2503 / 10000) 250 (by norm_num) (by norm_num)
      (by norm_num)]
    rfl
  refine ⟨by norm_num, e1, e2, ?_, ?_⟩
  · exact PPName.dict2name_single_congr "width" "" _ _ (e1.trans e2.symm)
  · exact PPName.dict2hash_single_congr "width" _ _ (e1.trans e2.symm)

end CSUPDK
